import Mathlib

/-
  Verification of the telemetry-scrapper repository.

  The repository has two variants of the same pipeline:
  * `local-test-two-networks.js` — a one-shot local script scraping two
    networks (Chronos / mainnet) and appending one row per network;
  * an unnamed serverless handler (src/unnamed/part_000) scraping a single
    network, wrapped in a bounded retry loop.

  The embedding below models every awaited external operation (auth setup,
  browser launch, page navigation, click evaluation, metric query, sheet
  append, browser close) as an `Except String`-valued input supplied by a
  "world" record, and the rendered DOM as a pair of lookup functions
  (CSS-selector and XPath) returning the text content of the matched
  element, or `none` when no element matches.  JavaScript values that the
  pipeline manipulates (null, NaN, numbers, strings) are modelled by the
  inductive `JSVal`.
-/

namespace TelemetryScrapper

/-- Model of the JavaScript values flowing through the pipeline:
`null`, `NaN` (produced by `parseInt` on unparseable input), numbers
(integers only — every number here is an integer count), and strings. -/
inductive JSVal where
  | null : JSVal
  | nan : JSVal
  | num : Int → JSVal
  | str : String → JSVal
deriving DecidableEq

/-- Numeric value of a decimal digit character. -/
def digitVal (c : Char) : Nat := c.toNat - 48

/-- Accumulate the value of a run of decimal digit characters. -/
def digitsToNat : Nat → List Char → Nat
  | acc, [] => acc
  | acc, c :: cs => digitsToNat (acc * 10 + digitVal c) cs

/-- Parse an optionally signed run of decimal digits at the head of a
character list, `NaN` when no digit is present. -/
def parseIntCore (sign : Int) (cs : List Char) : JSVal :=
  let ds := cs.takeWhile Char.isDigit
  if ds.isEmpty then JSVal.nan
  else JSVal.num (sign * (digitsToNat 0 ds : Int))

/-- Model of JavaScript `parseInt` on a string argument (decimal form):
skip leading whitespace, read an optional sign, then the longest leading
run of decimal digits; the result is `NaN` if that run is empty.  (The
hexadecimal `0x` form of `parseInt` is not modelled; no input in this
development uses it.) -/
def parseIntJS (s : String) : JSVal :=
  match s.toList.dropWhile Char.isWhitespace with
  | '-' :: rest => parseIntCore (-1) rest
  | '+' :: rest => parseIntCore 1 rest
  | cs => parseIntCore 1 cs

/-- Model of JavaScript `String.prototype.trim`: strip whitespace from both
ends. -/
def jsTrim (s : String) : String :=
  String.mk (((s.toList.dropWhile Char.isWhitespace).reverse.dropWhile Char.isWhitespace).reverse)

/-- Model of `parseInt(x)` where `x` is a string-or-null variable, as in the
local variant's `parseInt(getTextBySelector(...))`: JavaScript coerces
`null` to the string `"null"`, which contains no digits, so the result is
`NaN` (never `null`). -/
def parseIntOfNullable : Option String → JSVal
  | none => JSVal.nan
  | some s => parseIntJS s

/-- Model of the serverless variant's `x ? parseInt(x) : null` where `x` is a
string-or-null variable: `null` and the empty string are falsy and yield
`null`; any other string is parsed. -/
def truthyParse : Option String → JSVal
  | none => JSVal.null
  | some s => if s.isEmpty then JSVal.null else parseIntJS s

/-- Model of the rendered DOM of the telemetry page: `querySelector sel`
returns the text content of the first element matched by the CSS selector
`sel` (`none` when no element matches), and `evaluateXPath xp` does the
same for an XPath expression. -/
structure DOM where
  querySelector : String → Option String
  evaluateXPath : String → Option String

/-- `getTextBySelector` from both variants: `element ? element.textContent.trim() : null`. -/
def getTextBySelector (dom : DOM) (sel : String) : Option String :=
  (dom.querySelector sel).map jsTrim

/-- `getTextByXPath` from both variants: `element ? element.textContent.trim() : null`. -/
def getTextByXPath (dom : DOM) (xp : String) : Option String :=
  (dom.evaluateXPath xp).map jsTrim

def chainsNodeCountSelector : String := ".Chains-chain-selected .Chains-node-count"

def subspaceCountSelector : String :=
  "#root > div > div.Chain > div.Chain-content-container > div > div > div:nth-child(2) > table > tbody > tr:nth-child(1) > td.Stats-count"

def spaceAcresCountSelector : String :=
  "#root > div > div.Chain > div.Chain-content-container > div > div > div:nth-child(2) > table > tbody > tr:nth-child(2) > td.Stats-count"

def linuxCountXPath : String :=
  "//*[@id=\"root\"]/div/div[2]/div[2]/div/div/div[3]/table/tbody/tr[1]/td[2]"

def windowsCountXPath : String :=
  "//*[@id=\"root\"]/div/div[2]/div[2]/div/div/div[3]/table/tbody/tr[2]/td[2]"

def macosCountXPath : String :=
  "//*[@id=\"root\"]/div/div[2]/div[2]/div/div/div[3]/table/tbody/tr[3]/td[2]"

/-- One scrape result for one network: the `stats` object returned by
`page.evaluate` in both variants. -/
structure StatsSnapshot where
  nodeCount : JSVal
  subspaceNodeCount : JSVal
  spaceAcresNodeCount : JSVal
  linuxNodeCount : JSVal
  windowsNodeCount : JSVal
  macosNodeCount : JSVal
deriving DecidableEq

/-- Stats extraction of the local two-network variant
(`local-test-two-networks.js`, the `page.evaluate` body): `nodeCount` is
`element ? parseInt(element.textContent) : null`; every other field is
`parseInt(getText...(...))` applied directly to the string-or-null lookup
result, so a missing element gives `parseInt(null) = NaN` there. -/
def localExtractStats (dom : DOM) : StatsSnapshot :=
  let nodeCount :=
    match dom.querySelector chainsNodeCountSelector with
    | some text => parseIntJS text
    | none => JSVal.null
  ⟨nodeCount,
   parseIntOfNullable (getTextBySelector dom subspaceCountSelector),
   parseIntOfNullable (getTextBySelector dom spaceAcresCountSelector),
   parseIntOfNullable (getTextByXPath dom linuxCountXPath),
   parseIntOfNullable (getTextByXPath dom windowsCountXPath),
   parseIntOfNullable (getTextByXPath dom macosCountXPath)⟩

/-- Stats extraction of the serverless variant (src/unnamed/part_000, the
`page.evaluate` body): `nodeCount` as in the local variant; every other
field is `x ? parseInt(x) : null`, so a missing element gives `null`. -/
def serverlessExtractStats (dom : DOM) : StatsSnapshot :=
  let nodeCount :=
    match dom.querySelector chainsNodeCountSelector with
    | some text => parseIntJS text
    | none => JSVal.null
  ⟨nodeCount,
   truthyParse (getTextBySelector dom subspaceCountSelector),
   truthyParse (getTextBySelector dom spaceAcresCountSelector),
   truthyParse (getTextByXPath dom linuxCountXPath),
   truthyParse (getTextByXPath dom windowsCountXPath),
   truthyParse (getTextByXPath dom macosCountXPath)⟩

/-- Boolean success test on an `Except` outcome (used to decide whether
`browser` was assigned before the `finally` block runs). -/
def exOk {α : Type} : Except String α → Bool
  | .ok _ => true
  | .error _ => false

/-- The click-retry loop of the local variant (`scrapePageData`):
`for (let i = 0; i < 3; i++) { try { await page.evaluate(click); clickSuccess = true; break; } catch { ... } }`.
`clicks n` is the outcome of the `n`-th click evaluation: `.error` when the
evaluation throws, `.ok b` when it completes with `b` telling whether the
element was found and clicked.  The completed evaluation's boolean is
discarded by the source (any completed evaluation sets `clickSuccess`).
Returns `(clickSuccess, number of evaluations made)`. -/
def clickLoopAux (clicks : Nat → Except String Bool) : Nat → Nat → Bool × Nat
  | 0, made => (false, made)
  | fuel + 1, made =>
    match clicks made with
    | .ok _ => (true, made + 1)
    | .error _ => clickLoopAux clicks fuel (made + 1)

/-- The local click loop runs at most 3 iterations. -/
def clickLoop (clicks : Nat → Except String Bool) : Bool × Nat :=
  clickLoopAux clicks 3 0

/-- Number of click evaluations a local scrape performs: none when the
navigation threw (the scrape aborted before the loop), otherwise the
loop's count. -/
def scrapeClickCount (nav : Except String Unit) (clicks : Nat → Except String Bool) : Nat :=
  match nav with
  | .error _ => 0
  | .ok _ => (clickLoop clicks).2

/-- `scrapePageData` of the local variant, as a function of the navigation
outcome, the marker-wait outcome (`waitForElement` catches its own timeout
and merely logs, so `markerFound` influences nothing), the click-evaluation
outcomes (the loop logs failures and continues), and the rendered DOM.
Only a navigation failure escapes; otherwise the extracted stats are
returned. -/
def scrapePageData (nav : Except String Unit) (markerFound : Bool)
    (clicks : Nat → Except String Bool) (dom : DOM) : Except String StatsSnapshot :=
  match nav with
  | .error e => .error e
  | .ok _ =>
    let _marker := markerFound
    let _click := clickLoop clicks
    .ok (localExtractStats dom)

/-- `getSpacePledgedData` of the local variant.  `query n` models
`await spacePledged(await activate({networkId: n}))`; the `catch` block
logs and rethrows, so a query failure propagates unchanged.  For a network
other than `chronos` / `mainnet` the function falls through both branches
and returns JavaScript `undefined`, modelled as `.ok none`.  The second
component counts external queries made. -/
def getSpacePledgedData (network : String) (query : String → Except String Int) :
    Except String (Option Int) × Nat :=
  if network = "chronos" then ((query "chronos").map some, 1)
  else if network = "mainnet" then ((query "mainnet").map some, 1)
  else (.ok none, 0)

/-- `MAX_RETRIES` of the serverless variant. -/
def MAX_RETRIES : Nat := 3

/-- `runWithRetry` of the serverless variant, with `fuel = retries - i`
remaining loop iterations: `for (let i = 0; i < retries; i++) { try { return await fn(); } catch (e) { if (i === retries - 1) throw e; } }`.
`fn n` is the outcome of the `n`-th call of `fn`.  When the loop finishes
without returning (only possible with zero iterations) JavaScript returns
`undefined`, modelled as `.ok none`.  The second component is the number of
calls of `fn` made. -/
def runWithRetryAux {α : Type} (fn : Nat → Except String α) :
    Nat → Nat → Except String (Option α) × Nat
  | 0, i => (.ok none, i)
  | fuel + 1, i =>
    match fn i with
    | .ok a => (.ok (some a), i + 1)
    | .error e =>
      if fuel = 0 then (.error e, i + 1)
      else runWithRetryAux fn fuel (i + 1)

/-- `runWithRetry(fn, retries)`. -/
def runWithRetry {α : Type} (fn : Nat → Except String α) (retries : Nat) :
    Except String (Option α) × Nat :=
  runWithRetryAux fn retries 0

/-- Observable side effects of one pipeline run: the sheet-append calls
made (named range together with the row passed to the append), the number
of external metric queries made, and the number of click evaluations
made. -/
structure Trace where
  appends : List (String × List JSVal)
  queries : Nat
  clickEvals : Nat
deriving DecidableEq

/-- Result of a whole invocation: the value returned / error propagated,
the effect trace, and the number of `browser.close()` calls made. -/
structure RunResult (α : Type) where
  result : Except String α
  trace : Trace
  closes : Nat

/-- Outcomes of every awaited external operation of one run of the local
two-network script.  `authOk` covers the JWT construction (it throws when
an environment variable is missing), `query` is shared by both
`getSpacePledgedData` calls, and `timestamp` is `new Date().toISOString()`. -/
structure LocalWorld where
  authOk : Except String Unit
  launchOk : Except String Unit
  chronosNav : Except String Unit
  mainnetNav : Except String Unit
  chronosMarker : Bool
  mainnetMarker : Bool
  chronosClicks : Nat → Except String Bool
  mainnetClicks : Nat → Except String Bool
  chronosDom : DOM
  mainnetDom : DOM
  query : String → Except String Int
  chronosAppendOk : Except String Unit
  mainnetAppendOk : Except String Unit
  closeOk : Except String Unit
  timestamp : String

/-- The row the local variant passes to `sheets.spreadsheets.values.append`:
`[timestamp, nodeCount, spacePledged.toString(), subspaceNodeCount, spaceAcresNodeCount, linuxNodeCount, windowsNodeCount, macosNodeCount]`. -/
def localRow (ts : String) (s : StatsSnapshot) (spacePledgedStr : String) : List JSVal :=
  [JSVal.str ts, s.nodeCount, JSVal.str spacePledgedStr, s.subspaceNodeCount,
   s.spaceAcresNodeCount, s.linuxNodeCount, s.windowsNodeCount, s.macosNodeCount]

/-- JavaScript `x.toString()` on the space-pledged value: throws a
`TypeError` when `x` is `undefined` (unreachable here, because the script
only queries the literal networks `chronos` and `mainnet`). -/
def jsToStringOrThrow : Option Int → Except String String
  | some v => .ok (toString v)
  | none => .error "TypeError: Cannot read properties of undefined"

/-- The `try` block of `runScript` in the local two-network variant:
auth setup, browser launch, the two scrapes in `Promise.all`, the two
`getSpacePledgedData` calls in `Promise.all`, then the two guarded appends
(`if (stats.nodeCount !== null)`), Chronos first.  Both scrapes run before
either result is examined, and likewise both metric queries, matching
`Promise.all`. -/
def runScriptTry (w : LocalWorld) : Except String Unit × Trace :=
  match w.authOk with
  | .error e => (.error e, ⟨[], 0, 0⟩)
  | .ok _ =>
    match w.launchOk with
    | .error e => (.error e, ⟨[], 0, 0⟩)
    | .ok _ =>
      let kc := scrapeClickCount w.chronosNav w.chronosClicks
                + scrapeClickCount w.mainnetNav w.mainnetClicks
      match scrapePageData w.chronosNav w.chronosMarker w.chronosClicks w.chronosDom,
            scrapePageData w.mainnetNav w.mainnetMarker w.mainnetClicks w.mainnetDom with
      | .error e, _ => (.error e, ⟨[], 0, kc⟩)
      | .ok _, .error e => (.error e, ⟨[], 0, kc⟩)
      | .ok chronosStats, .ok mainnetStats =>
        let cq := getSpacePledgedData "chronos" w.query
        let mq := getSpacePledgedData "mainnet" w.query
        let qc := cq.2 + mq.2
        match cq.1, mq.1 with
        | .error e, _ => (.error e, ⟨[], qc, kc⟩)
        | .ok _, .error e => (.error e, ⟨[], qc, kc⟩)
        | .ok chronosSpacePledged, .ok mainnetSpacePledged =>
          if chronosStats.nodeCount ≠ JSVal.null then
            match jsToStringOrThrow chronosSpacePledged with
            | .error e => (.error e, ⟨[], qc, kc⟩)
            | .ok cstr =>
              let rowC := localRow w.timestamp chronosStats cstr
              match w.chronosAppendOk with
              | .error e => (.error e, ⟨[("Chronos", rowC)], qc, kc⟩)
              | .ok _ =>
                if mainnetStats.nodeCount ≠ JSVal.null then
                  match jsToStringOrThrow mainnetSpacePledged with
                  | .error e => (.error e, ⟨[("Chronos", rowC)], qc, kc⟩)
                  | .ok mstr =>
                    let rowM := localRow w.timestamp mainnetStats mstr
                    match w.mainnetAppendOk with
                    | .error e => (.error e, ⟨[("Chronos", rowC), ("mainnet", rowM)], qc, kc⟩)
                    | .ok _ => (.ok (), ⟨[("Chronos", rowC), ("mainnet", rowM)], qc, kc⟩)
                else (.ok (), ⟨[("Chronos", rowC)], qc, kc⟩)
          else
            if mainnetStats.nodeCount ≠ JSVal.null then
              match jsToStringOrThrow mainnetSpacePledged with
              | .error e => (.error e, ⟨[], qc, kc⟩)
              | .ok mstr =>
                let rowM := localRow w.timestamp mainnetStats mstr
                match w.mainnetAppendOk with
                | .error e => (.error e, ⟨[("mainnet", rowM)], qc, kc⟩)
                | .ok _ => (.ok (), ⟨[("mainnet", rowM)], qc, kc⟩)
            else (.ok (), ⟨[], qc, kc⟩)

/-- `runScript` of the local variant: the `try` block above, a `catch` that
logs and swallows every error raised in the `try`, and a `finally` that
calls `browser.close()` exactly when `browser` was assigned — i.e. when the
auth setup and the launch both succeeded.  An error thrown by
`browser.close()` itself escapes the function (a `finally` block's throw is
not caught). -/
def runScript (w : LocalWorld) : RunResult Unit :=
  let rt := runScriptTry w
  if exOk w.authOk && exOk w.launchOk then
    match w.closeOk with
    | .ok _ => ⟨.ok (), rt.2, 1⟩
    | .error e => ⟨.error e, rt.2, 1⟩
  else ⟨.ok (), rt.2, 0⟩

/-- Outcomes of every awaited external operation of one attempt of the
serverless handler.  `clickEval` is the single click evaluation (`.ok b`
when it completes, `b` telling whether the element was found and clicked),
`apiFetch` is `axios.get(...)` followed by reading `.data.spacePledged`
(a JSON value, appended to the row as-is). -/
structure ServerlessWorld where
  authOk : Except String Unit
  launchOk : Except String Unit
  navOk : Except String Unit
  clickEval : Except String Bool
  dom : DOM
  apiFetch : Except String JSVal
  appendOk : Except String Unit
  closeOk : Except String Unit
  timestamp : String

/-- The row the serverless variant passes to the append:
`[timestamp, nodeCount, spacePledged, subspaceNodeCount, spaceAcresNodeCount, linuxNodeCount, windowsNodeCount, macosNodeCount]`
with `spacePledged` appended exactly as fetched. -/
def serverlessRow (ts : String) (s : StatsSnapshot) (spacePledged : JSVal) : List JSVal :=
  [JSVal.str ts, s.nodeCount, spacePledged, s.subspaceNodeCount,
   s.spaceAcresNodeCount, s.linuxNodeCount, s.windowsNodeCount, s.macosNodeCount]

/-- The `try` block of one attempt of the serverless handler: auth setup,
launch, navigation (its local `catch` logs and rethrows), the single click
evaluation (a throw escapes; a completed evaluation merely logs its
result), stats extraction, the API metric fetch, and an unconditional
append — the serverless variant has no null guard before the append.  The
handler's `catch` rethrows, so the error of the failing step is the
attempt's result. -/
def serverlessAttemptTry (w : ServerlessWorld) : Except String String × Trace :=
  match w.authOk with
  | .error e => (.error e, ⟨[], 0, 0⟩)
  | .ok _ =>
    match w.launchOk with
    | .error e => (.error e, ⟨[], 0, 0⟩)
    | .ok _ =>
      match w.navOk with
      | .error e => (.error e, ⟨[], 0, 0⟩)
      | .ok _ =>
        match w.clickEval with
        | .error e => (.error e, ⟨[], 0, 1⟩)
        | .ok _ =>
          let stats := serverlessExtractStats w.dom
          match w.apiFetch with
          | .error e => (.error e, ⟨[], 1, 1⟩)
          | .ok spacePledged =>
            let row := serverlessRow w.timestamp stats spacePledged
            match w.appendOk with
            | .error e => (.error e, ⟨[("Sheet1", row)], 1, 1⟩)
            | .ok _ => (.ok "Data updated successfully", ⟨[("Sheet1", row)], 1, 1⟩)

/-- One full attempt of the serverless handler: the `try` block, a `catch`
that rethrows, and a `finally` that calls `browser.close()` exactly when
`browser` was assigned (auth and launch both succeeded); an error thrown
by `browser.close()` replaces the attempt's result. -/
def serverlessAttemptFull (w : ServerlessWorld) : RunResult String :=
  let rt := serverlessAttemptTry w
  if exOk w.authOk && exOk w.launchOk then
    match w.closeOk with
    | .ok _ => ⟨rt.1, rt.2, 1⟩
    | .error e => ⟨.error e, rt.2, 1⟩
  else ⟨rt.1, rt.2, 0⟩

/-- The exported serverless handler: the whole unit of work wrapped in
`runWithRetry` with the default `MAX_RETRIES`; `worlds n` supplies the
external outcomes of attempt `n`. -/
def serverlessHandler (worlds : Nat → ServerlessWorld) :
    Except String (Option String) × Nat :=
  runWithRetry (fun i => (serverlessAttemptFull (worlds i)).result) MAX_RETRIES

/-- An operation that throws on its first `k` calls and succeeds with `v`
from call `k` on — the behaviour family used to analyse the retry
wrapper under `k` consecutive initial failures. -/
def failsThen {α : Type} (k : Nat) (v : α) : Nat → Except String α :=
  fun i => if i < k then .error (toString i) else .ok v

/-- A click-evaluation behaviour that throws on its first `j` attempts and
completes (element found and clicked) from attempt `j` on. -/
def failTimes (j : Nat) : Nat → Except String Bool :=
  fun i => if i < j then .error (toString i) else .ok true

/-- A rendered DOM in which no selector or XPath lookup matches anything
(for instance, the dashboard never finished loading and the marker element
`.Chains-chain-selected` never appeared). -/
def emptyDom : DOM := ⟨fun _ => none, fun _ => none⟩

/-- A fully populated rendered DOM: every field selector of the pipeline
resolves to a numeric text. -/
def fullDom : DOM :=
  ⟨fun sel =>
      if sel = chainsNodeCountSelector then some "100"
      else if sel = subspaceCountSelector then some "60"
      else if sel = spaceAcresCountSelector then some "40"
      else none,
   fun xp =>
      if xp = linuxCountXPath then some "70"
      else if xp = windowsCountXPath then some "20"
      else if xp = macosCountXPath then some "10"
      else some "clickable"⟩

/-- A serverless attempt in which every external operation succeeds and the
page is fully populated. -/
def okServerlessWorld : ServerlessWorld :=
  ⟨.ok (), .ok (), .ok (), .ok true, fullDom, .ok (JSVal.str "12345"), .ok (), .ok (),
   "2026-01-01T00:00:00.000Z"⟩

/-- A serverless attempt in which every external operation succeeds but the
page never rendered: every lookup fails, so the snapshot is all-`null`. -/
def nullStatsServerlessWorld : ServerlessWorld :=
  ⟨.ok (), .ok (), .ok (), .ok true, emptyDom, .ok (JSVal.str "12345"), .ok (), .ok (),
   "2026-01-01T00:00:00.000Z"⟩

/-- A serverless attempt in which the single click evaluation completes but
reports the target element missing (`Element not found`): the click did not
happen, yet the evaluation did not throw. -/
def notFoundClickServerlessWorld : ServerlessWorld :=
  ⟨.ok (), .ok (), .ok (), .ok false, fullDom, .ok (JSVal.str "12345"), .ok (), .ok (),
   "2026-01-01T00:00:00.000Z"⟩

/-- A serverless attempt whose page navigation throws; everything else
would have succeeded. -/
def navFailServerlessWorld : ServerlessWorld :=
  ⟨.ok (), .ok (), .error "Navigation failed", .ok true, fullDom, .ok (JSVal.str "12345"),
   .ok (), .ok (), "2026-01-01T00:00:00.000Z"⟩

/-- The attempt sequence of a serverless invocation whose first two
attempts fail on navigation and whose third attempt succeeds. -/
def thirdTimeLuckyWorlds : Nat → ServerlessWorld :=
  fun i => if i < 2 then navFailServerlessWorld else okServerlessWorld

/-- A local run in which every external operation succeeds and both pages
are fully populated. -/
def okLocalWorld : LocalWorld :=
  ⟨.ok (), .ok (), .ok (), .ok (), true, true, fun _ => .ok true, fun _ => .ok true,
   fullDom, fullDom, fun _ => .ok 777, .ok (), .ok (), .ok (), "2026-01-01T00:00:00.000Z"⟩

/-- A local run that succeeds everywhere except that the Chronos page never
rendered (its node count is `null`). -/
def nullChronosLocalWorld : LocalWorld :=
  ⟨.ok (), .ok (), .ok (), .ok (), false, true, fun _ => .ok true, fun _ => .ok true,
   emptyDom, fullDom, fun _ => .ok 777, .ok (), .ok (), .ok (), "2026-01-01T00:00:00.000Z"⟩

/-- A local run in which the whole pipeline succeeds but `browser.close()`
throws in the `finally` block. -/
def closeFailLocalWorld : LocalWorld :=
  ⟨.ok (), .ok (), .ok (), .ok (), true, true, fun _ => .ok true, fun _ => .ok true,
   fullDom, fullDom, fun _ => .ok 777, .ok (), .ok (), .error "Protocol error: Connection closed",
   "2026-01-01T00:00:00.000Z"⟩

/-- A local run in which every pipeline step fails that can fail (the
metric query and both appends throw, both navigations throw), while
`browser.close()` succeeds. -/
def allFailLocalWorld : LocalWorld :=
  ⟨.ok (), .ok (), .error "nav chronos", .error "nav mainnet", false, false,
   fun _ => .error "click", fun _ => .error "click", emptyDom, emptyDom,
   fun _ => .error "rpc down", .error "append", .error "append", .ok (),
   "2026-01-01T00:00:00.000Z"⟩

end TelemetryScrapper

deriving instance DecidableEq for Except

set_option maxRecDepth 8192

namespace TelemetryScrapper

/-- A successful `scrapePageData` result is exactly the extraction of the
rendered DOM, whatever the marker wait and the click loop did. -/
theorem scrapePageData_ok (nav : Except String Unit) (markerFound : Bool)
    (clicks : Nat → Except String Bool) (dom : DOM) (s : StatsSnapshot)
    (h : scrapePageData nav markerFound clicks dom = .ok s) :
    s = localExtractStats dom := by
  cases nav with
  | error e => simp [scrapePageData] at h
  | ok u => simp [scrapePageData] at h; exact h.symm

/-- The local `catch`/`finally` wrapper neither adds nor removes observable
effects: `runScript`'s trace is the `try` block's trace. -/
theorem runScript_trace_eq (w : LocalWorld) :
    (runScript w).trace = (runScriptTry w).2 := by
  unfold runScript
  rcases w.closeOk with e | u <;> rcases h : exOk w.authOk && exOk w.launchOk <;> simp [h]

/-- A `("Chronos", row)` append call is made by the local script only when
the Chronos snapshot's node count is not `null`. -/
theorem chronos_append_guard (w : LocalWorld) (r : List JSVal)
    (hmem : ("Chronos", r) ∈ (runScriptTry w).2.appends) :
    (localExtractStats w.chronosDom).nodeCount ≠ JSVal.null := by
  simp only [runScriptTry] at hmem
  rcases hA : w.authOk with eA | uA
  · simp only [hA] at hmem; simp at hmem
  simp only [hA] at hmem
  rcases hL : w.launchOk with eL | uL
  · simp only [hL] at hmem; simp at hmem
  simp only [hL] at hmem
  rcases hC : scrapePageData w.chronosNav w.chronosMarker w.chronosClicks w.chronosDom with eC | cs
  · simp only [hC] at hmem; simp at hmem
  rcases hM : scrapePageData w.mainnetNav w.mainnetMarker w.mainnetClicks w.mainnetDom with eM | ms
  · simp only [hC, hM] at hmem; simp at hmem
  simp only [hC, hM] at hmem
  rcases hq1 : (getSpacePledgedData "chronos" w.query).1 with e1 | v1
  · simp only [hq1] at hmem; simp at hmem
  rcases hq2 : (getSpacePledgedData "mainnet" w.query).1 with e2 | v2
  · simp only [hq1, hq2] at hmem; simp at hmem
  simp only [hq1, hq2] at hmem
  have hcs := scrapePageData_ok _ _ _ _ _ hC
  have hms := scrapePageData_ok _ _ _ _ _ hM
  subst hcs; subst hms
  repeat' split at hmem
  all_goals
    first
      | exact absurd hmem (List.not_mem_nil _)
      | assumption
      | (exfalso; revert hmem; simp)

/-- A `("mainnet", row)` append call is made by the local script only when
the mainnet snapshot's node count is not `null`. -/
theorem mainnet_append_guard (w : LocalWorld) (r : List JSVal)
    (hmem : ("mainnet", r) ∈ (runScriptTry w).2.appends) :
    (localExtractStats w.mainnetDom).nodeCount ≠ JSVal.null := by
  simp only [runScriptTry] at hmem
  rcases hA : w.authOk with eA | uA
  · simp only [hA] at hmem; simp at hmem
  simp only [hA] at hmem
  rcases hL : w.launchOk with eL | uL
  · simp only [hL] at hmem; simp at hmem
  simp only [hL] at hmem
  rcases hC : scrapePageData w.chronosNav w.chronosMarker w.chronosClicks w.chronosDom with eC | cs
  · simp only [hC] at hmem; simp at hmem
  rcases hM : scrapePageData w.mainnetNav w.mainnetMarker w.mainnetClicks w.mainnetDom with eM | ms
  · simp only [hC, hM] at hmem; simp at hmem
  simp only [hC, hM] at hmem
  rcases hq1 : (getSpacePledgedData "chronos" w.query).1 with e1 | v1
  · simp only [hq1] at hmem; simp at hmem
  rcases hq2 : (getSpacePledgedData "mainnet" w.query).1 with e2 | v2
  · simp only [hq1, hq2] at hmem; simp at hmem
  simp only [hq1, hq2] at hmem
  have hcs := scrapePageData_ok _ _ _ _ _ hC
  have hms := scrapePageData_ok _ _ _ _ _ hM
  subst hcs; subst hms
  repeat' split at hmem
  all_goals
    first
      | exact absurd hmem (List.not_mem_nil _)
      | assumption
      | (exfalso; revert hmem; simp)

/-- Claim C2, counterexample: with `k = 0` consecutive failures (the
operation succeeds immediately), `runWithRetry` calls the operation once,
not `min(0, MAX_RETRIES) = 0` times as the claim states. -/
theorem c2_counterexample :
    (runWithRetry (failsThen 0 (0 : Nat)) MAX_RETRIES).2 ≠ min 0 MAX_RETRIES := by
  decide

/-- Claim C2 (amended): when the operation fails on its first `k` calls and
succeeds afterwards, `runWithRetry` calls it exactly `min(k+1, MAX_RETRIES)`
times (equivalently, `min(k, MAX_RETRIES)` of the calls fail); it returns
the operation's value when `k < MAX_RETRIES` (no failure propagates before
the limit), and re-raises the last error — the one of call `MAX_RETRIES` —
exactly when `k ≥ MAX_RETRIES`. -/
theorem c2_amended {α : Type} (k : Nat) (v : α) :
    (runWithRetry (failsThen k v) MAX_RETRIES).2 = min (k + 1) MAX_RETRIES ∧
    (runWithRetry (failsThen k v) MAX_RETRIES).1 =
      (if k < MAX_RETRIES then Except.ok (some v)
       else Except.error (toString (MAX_RETRIES - 1))) := by
  match k with
  | 0 => exact ⟨rfl, rfl⟩
  | 1 => exact ⟨rfl, rfl⟩
  | 2 => exact ⟨rfl, rfl⟩
  | n + 3 =>
    have e0 : failsThen (n + 3) v 0 = Except.error (toString 0) := by
      unfold failsThen; rw [if_pos (by omega)]
    have e1 : failsThen (n + 3) v 1 = Except.error (toString 1) := by
      unfold failsThen; rw [if_pos (by omega)]
    have e2 : failsThen (n + 3) v 2 = Except.error (toString 2) := by
      unfold failsThen; rw [if_pos (by omega)]
    have h : runWithRetry (failsThen (n + 3) v) MAX_RETRIES =
        (Except.error (toString 2), 3) := by
      unfold runWithRetry MAX_RETRIES
      simp [runWithRetryAux, e0, e1, e2]
    rw [h]
    constructor
    · show (3 : Nat) = min (n + 3 + 1) MAX_RETRIES
      unfold MAX_RETRIES; omega
    · rw [if_neg (by unfold MAX_RETRIES; omega)]; rfl

/-- Claim C5: the browser is released exactly once per invocation whenever
it was acquired (auth setup and launch both succeeded), on every exit path
— success or failure of any later step, including a failing append — and it
is never released when the launch (or the auth setup before it) failed, in
both the local and the serverless variant. -/
theorem c5_browser_released_once (w : LocalWorld) (sw : ServerlessWorld) :
    (runScript w).closes = (if exOk w.authOk && exOk w.launchOk then 1 else 0) ∧
    (serverlessAttemptFull sw).closes =
      (if exOk sw.authOk && exOk sw.launchOk then 1 else 0) := by
  constructor
  · unfold runScript
    cases h : exOk w.authOk && exOk w.launchOk <;> cases hc : w.closeOk <;> simp [h, hc]
  · unfold serverlessAttemptFull
    cases h : exOk sw.authOk && exOk sw.launchOk <;> cases hc : sw.closeOk <;> simp [h, hc]

/-- Claim C6: when the serverless unit of work throws on attempts 1 and 2
and succeeds on attempt 3, the handler returns the attempt-3 value after
exactly 3 calls, and no error reaches the caller. -/
theorem c6_third_attempt_returns (worlds : Nat → ServerlessWorld) (e0 e1 r : String)
    (h0 : (serverlessAttemptFull (worlds 0)).result = Except.error e0)
    (h1 : (serverlessAttemptFull (worlds 1)).result = Except.error e1)
    (h2 : (serverlessAttemptFull (worlds 2)).result = Except.ok r) :
    serverlessHandler worlds = (Except.ok (some r), 3) := by
  unfold serverlessHandler runWithRetry MAX_RETRIES
  simp [runWithRetryAux, h0, h1, h2]

/-- Witness for C6 at a concrete attempt sequence: the first two attempts
fail on navigation, the third succeeds, and the handler returns the third
attempt's response. -/
theorem c6_witness :
    serverlessHandler thirdTimeLuckyWorlds =
      (Except.ok (some "Data updated successfully"), 3) :=
  c6_third_attempt_returns thirdTimeLuckyWorlds "Navigation failed" "Navigation failed"
    "Data updated successfully" (by decide) (by decide) (by decide)

/-- Claim C7: for the networks `chronos` and `mainnet`, a failing
pledged-space query is re-raised unchanged by `getSpacePledgedData`, and a
successful query's value is returned. -/
theorem c7_metric_error_propagation (network : String)
    (query : String → Except String Int)
    (h : network = "chronos" ∨ network = "mainnet") :
    (∀ e, query network = Except.error e →
      (getSpacePledgedData network query).1 = Except.error e) ∧
    (∀ v, query network = Except.ok v →
      (getSpacePledgedData network query).1 = Except.ok (some v)) := by
  rcases h with h | h <;> subst h <;>
    exact ⟨fun e he => by simp [getSpacePledgedData, Except.map, he],
           fun v hv => by simp [getSpacePledgedData, Except.map, hv]⟩

/-- Witness for C7 at a concrete failing query. -/
theorem c7_witness :
    (getSpacePledgedData "chronos" (fun _ => Except.error "connection refused")).1 =
      Except.error "connection refused" :=
  (c7_metric_error_propagation "chronos" (fun _ => Except.error "connection refused")
    (Or.inl rfl)).1 "connection refused" rfl

/-- Claim C9: for any network other than `chronos` and `mainnet`,
`getSpacePledgedData` returns JavaScript `undefined` (modelled `.ok none`)
without raising and without making any external query. -/
theorem c9_unknown_network (network : String) (query : String → Except String Int)
    (h1 : network ≠ "chronos") (h2 : network ≠ "mainnet") :
    getSpacePledgedData network query = (Except.ok none, 0) := by
  simp [getSpacePledgedData, h1, h2]

/-- Witness for C9 at the concrete network name `taurus`. -/
theorem c9_witness :
    getSpacePledgedData "taurus" (fun _ => Except.error "unused") = (Except.ok none, 0) :=
  c9_unknown_network "taurus" (fun _ => Except.error "unused") (by decide) (by decide)

/-- Claim C10, counterexample: when the whole pipeline succeeds but
`browser.close()` throws in the `finally` block, `runScript` propagates
that error to its caller — the invocation does not complete without
raising. -/
theorem c10_counterexample :
    (runScript closeFailLocalWorld).result = Except.error "Protocol error: Connection closed" ∧
    (runScript closeFailLocalWorld).result ≠ Except.ok () := by
  decide

/-- Claim C10 (amended): whenever `browser.close()` itself does not throw,
`runScript` never propagates any error — every failure raised inside its
`try` block (authentication, navigation, scraping, metric fetch, append)
is caught at the top level and swallowed, with no retry; only a throw of
`browser.close()` in the `finally` block can escape. -/
theorem c10_amended (w : LocalWorld) (h : w.closeOk = Except.ok ()) :
    (runScript w).result = Except.ok () := by
  unfold runScript
  rw [h]
  split <;> rfl

/-- Witness for C10 at a run in which every pipeline step fails but the
browser closes normally: the invocation still completes without raising. -/
theorem c10_witness : (runScript allFailLocalWorld).result = Except.ok () :=
  c10_amended allFailLocalWorld rfl

/-- Claim C1, counterexample: in the serverless variant a run whose page
never rendered (node count `null`) still makes the append call — the row
appended carries `null` in the node-count position, so the append is not
skipped when the primary node-count field is absent. -/
theorem c1_counterexample :
    (serverlessExtractStats nullStatsServerlessWorld.dom).nodeCount = JSVal.null ∧
    (serverlessAttemptFull nullStatsServerlessWorld).trace.appends =
      [("Sheet1",
        [JSVal.str "2026-01-01T00:00:00.000Z", JSVal.null, JSVal.str "12345",
         JSVal.null, JSVal.null, JSVal.null, JSVal.null, JSVal.null])] := by
  decide

/-- Claim C1 (amended): in the local two-network variant the append for a
network is skipped whenever that network's node count is `null` (regardless
of the other snapshot fields), and a row is appended for it only when the
node count is not `null`; the serverless variant, by contrast, has no such
guard and makes its append call unconditionally whenever the pipeline
reaches the append step, whatever the snapshot contains. -/
theorem c1_amended (w : LocalWorld) (sw : ServerlessWorld) :
    ((localExtractStats w.chronosDom).nodeCount = JSVal.null →
      ∀ r, ("Chronos", r) ∉ (runScript w).trace.appends) ∧
    ((localExtractStats w.mainnetDom).nodeCount = JSVal.null →
      ∀ r, ("mainnet", r) ∉ (runScript w).trace.appends) ∧
    (∀ r, ("Chronos", r) ∈ (runScript w).trace.appends →
      (localExtractStats w.chronosDom).nodeCount ≠ JSVal.null) ∧
    (∀ r, ("mainnet", r) ∈ (runScript w).trace.appends →
      (localExtractStats w.mainnetDom).nodeCount ≠ JSVal.null) ∧
    (sw.authOk = Except.ok () → sw.launchOk = Except.ok () → sw.navOk = Except.ok () →
      (∃ b, sw.clickEval = Except.ok b) → (∃ m, sw.apiFetch = Except.ok m) →
      (serverlessAttemptFull sw).trace.appends.length = 1) := by
  refine ⟨?_, ?_, ?_, ?_, ?_⟩
  · intro hnull r hmem
    exact chronos_append_guard w r (by rwa [runScript_trace_eq] at hmem) hnull
  · intro hnull r hmem
    exact mainnet_append_guard w r (by rwa [runScript_trace_eq] at hmem) hnull
  · intro r hmem
    exact chronos_append_guard w r (by rwa [runScript_trace_eq] at hmem)
  · intro r hmem
    exact mainnet_append_guard w r (by rwa [runScript_trace_eq] at hmem)
  · rintro hA hL hN ⟨b, hb⟩ ⟨m, hm⟩
    unfold serverlessAttemptFull serverlessAttemptTry
    simp only [hA, hL, hN, hb, hm]
    cases hap : sw.appendOk <;> cases hcl : sw.closeOk <;>
      simp [hA, hL, hap, hcl, exOk]

/-- Witness for C1: with the Chronos page unrendered the local script
appends no Chronos row; in the serverless variant one append call is made
on a successful attempt. -/
theorem c1_witness :
    ("Chronos", ([] : List JSVal)) ∉ (runScript nullChronosLocalWorld).trace.appends ∧
    (serverlessAttemptFull okServerlessWorld).trace.appends.length = 1 :=
  ⟨(c1_amended nullChronosLocalWorld okServerlessWorld).1 (by decide) [],
   (c1_amended nullChronosLocalWorld okServerlessWorld).2.2.2.2 rfl rfl rfl
     ⟨true, rfl⟩ ⟨JSVal.str "12345", rfl⟩⟩

/-- Claim C3, counterexample: in the local variant, when no lookup matches
(the marker element never appeared and the page shows nothing), the
snapshot's `subspaceNodeCount` is `NaN` — `parseInt(null)` — not the
absent value `null` the claim requires for every field. -/
theorem c3_counterexample :
    emptyDom.querySelector chainsNodeCountSelector = none ∧
    (localExtractStats emptyDom).subspaceNodeCount = JSVal.nan ∧
    (localExtractStats emptyDom).subspaceNodeCount ≠ JSVal.null := by
  decide

/-- Claim C3 (amended): when every selector/XPath lookup fails, the scraper
still completes without raising and returns a snapshot; in the serverless
variant every field of that snapshot is `null`, while in the local variant
the primary node count is `null` but the five remaining fields are `NaN`
(`parseInt` applied to a `null` lookup), a non-null placeholder. -/
theorem c3_amended (dom : DOM) (markerFound : Bool)
    (clicks : Nat → Except String Bool)
    (hq : ∀ s, dom.querySelector s = none)
    (hx : ∀ x, dom.evaluateXPath x = none) :
    localExtractStats dom =
      ⟨JSVal.null, JSVal.nan, JSVal.nan, JSVal.nan, JSVal.nan, JSVal.nan⟩ ∧
    serverlessExtractStats dom =
      ⟨JSVal.null, JSVal.null, JSVal.null, JSVal.null, JSVal.null, JSVal.null⟩ ∧
    scrapePageData (Except.ok ()) markerFound clicks dom =
      Except.ok (localExtractStats dom) := by
  refine ⟨?_, ?_, rfl⟩
  · simp [localExtractStats, getTextBySelector, getTextByXPath, hq, hx, parseIntOfNullable]
  · simp [serverlessExtractStats, getTextBySelector, getTextByXPath, hq, hx, truthyParse]

/-- Witness for C3 at the concrete all-empty DOM, with the marker absent
and every click evaluation throwing. -/
theorem c3_witness :
    localExtractStats emptyDom =
      ⟨JSVal.null, JSVal.nan, JSVal.nan, JSVal.nan, JSVal.nan, JSVal.nan⟩ ∧
    serverlessExtractStats emptyDom =
      ⟨JSVal.null, JSVal.null, JSVal.null, JSVal.null, JSVal.null, JSVal.null⟩ ∧
    scrapePageData (Except.ok ()) false (fun _ => Except.error "evaluation failed") emptyDom =
      Except.ok (localExtractStats emptyDom) :=
  c3_amended emptyDom false (fun _ => Except.error "evaluation failed")
    (fun _ => rfl) (fun _ => rfl)

/-- Claim C4: with a fully populated snapshot (6 integer fields) and a
successful metric fetch, the appended row is the fixed-order sequence
`[timestamp, nodeCount, spacePledged-as-string, subspaceNodeCount,
spaceAcresNodeCount, linuxNodeCount, windowsNodeCount, macosNodeCount]`:
in the local variant the pledged value appears as `toString` of the fetched
number, and in the serverless variant a fetched string value such as
`"12345"` is appended unchanged — in both, a string in position 3. -/
theorem c4_row_format (w : LocalWorld) (sw : ServerlessWorld)
    (a1 a2 a3 a4 a5 a6 b1 b2 b3 b4 b5 b6 : Int) (sp spM : Int)
    (hA : w.authOk = Except.ok ()) (hL : w.launchOk = Except.ok ())
    (hCN : w.chronosNav = Except.ok ()) (hMN : w.mainnetNav = Except.ok ())
    (hq1 : w.query "chronos" = Except.ok sp) (hq2 : w.query "mainnet" = Except.ok spM)
    (hs : localExtractStats w.chronosDom =
      ⟨JSVal.num a1, JSVal.num a2, JSVal.num a3, JSVal.num a4, JSVal.num a5, JSVal.num a6⟩)
    (hsA : sw.authOk = Except.ok ()) (hsL : sw.launchOk = Except.ok ())
    (hsN : sw.navOk = Except.ok ()) (hsc : ∃ b, sw.clickEval = Except.ok b)
    (hsf : sw.apiFetch = Except.ok (JSVal.str "12345"))
    (hsd : serverlessExtractStats sw.dom =
      ⟨JSVal.num b1, JSVal.num b2, JSVal.num b3, JSVal.num b4, JSVal.num b5, JSVal.num b6⟩) :
    ("Chronos",
      [JSVal.str w.timestamp, JSVal.num a1, JSVal.str (toString sp), JSVal.num a2,
       JSVal.num a3, JSVal.num a4, JSVal.num a5, JSVal.num a6]) ∈
      (runScript w).trace.appends ∧
    (serverlessAttemptFull sw).trace.appends =
      [("Sheet1",
        [JSVal.str sw.timestamp, JSVal.num b1, JSVal.str "12345", JSVal.num b2,
         JSVal.num b3, JSVal.num b4, JSVal.num b5, JSVal.num b6])] := by
  constructor
  · rw [runScript_trace_eq]
    have g1 : getSpacePledgedData "chronos" w.query = ((w.query "chronos").map some, 1) := rfl
    have g2 : getSpacePledgedData "mainnet" w.query = ((w.query "mainnet").map some, 1) := rfl
    simp only [runScriptTry, hA, hL, scrapePageData, hCN, hMN, g1, g2, hq1, hq2,
      Except.map, jsToStringOrThrow, hs]
    rw [if_pos (by simp)]
    simp only [localRow]
    repeat' split
    all_goals simp
  · obtain ⟨b, hb⟩ := hsc
    unfold serverlessAttemptFull serverlessAttemptTry
    simp only [hsA, hsL, hsN, hb, hsf, hsd, serverlessRow]
    cases hap : sw.appendOk <;> cases hcl : sw.closeOk <;>
      simp [hsA, hsL, hap, hcl, exOk]

/-- Witness for C4 at the fully populated fixtures: the appended rows at
the concrete inputs. -/
theorem c4_witness :
    ("Chronos",
      [JSVal.str "2026-01-01T00:00:00.000Z", JSVal.num 100, JSVal.str (toString (777 : Int)),
       JSVal.num 60, JSVal.num 40, JSVal.num 70, JSVal.num 20, JSVal.num 10]) ∈
      (runScript okLocalWorld).trace.appends ∧
    (serverlessAttemptFull okServerlessWorld).trace.appends =
      [("Sheet1",
        [JSVal.str "2026-01-01T00:00:00.000Z", JSVal.num 100, JSVal.str "12345",
         JSVal.num 60, JSVal.num 40, JSVal.num 70, JSVal.num 20, JSVal.num 10])] :=
  c4_row_format okLocalWorld okServerlessWorld 100 60 40 70 20 10 100 60 40 70 20 10 777 777
    rfl rfl rfl rfl rfl rfl (by decide) rfl rfl rfl ⟨true, rfl⟩ rfl (by decide)

/-- Claim C8, counterexample: in the serverless variant the single click
evaluation completes reporting the target element missing — the click did
not happen — yet only one evaluation is made: the code neither retries the
failed click nor makes up to 3 attempts. -/
theorem c8_counterexample :
    notFoundClickServerlessWorld.clickEval = Except.ok false ∧
    (serverlessAttemptFull notFoundClickServerlessWorld).trace.clickEvals = 1 ∧
    ¬ ((serverlessAttemptFull notFoundClickServerlessWorld).trace.clickEvals = 3 ∨
       notFoundClickServerlessWorld.clickEval = Except.ok true) := by
  decide

/-- Claim C8 (amended): in the local variant the scraper makes up to 3
click evaluations (with a fixed 2-second delay between attempts in the
source), retrying exactly when an evaluation throws: with the first `j`
evaluations throwing, `min(j+1, 3)` evaluations are made and the loop
reports success iff `j < 3`; exhausting all 3 attempts is logged but
non-fatal — the scrape proceeds to field extraction regardless.  The
serverless variant makes at most one click evaluation per attempt, with no
click-level retry. -/
theorem c8_amended (j : Nat) (dom : DOM) (markerFound : Bool) (sw : ServerlessWorld) :
    clickLoop (failTimes j) = (decide (j < 3), min (j + 1) 3) ∧
    scrapePageData (Except.ok ()) markerFound (failTimes j) dom =
      Except.ok (localExtractStats dom) ∧
    (serverlessAttemptFull sw).trace.clickEvals ≤ 1 := by
  refine ⟨?_, rfl, ?_⟩
  · match j with
    | 0 => rfl
    | 1 => rfl
    | 2 => rfl
    | n + 3 =>
      have e0 : failTimes (n + 3) 0 = Except.error (toString 0) := by
        unfold failTimes; rw [if_pos (by omega)]
      have e1 : failTimes (n + 3) 1 = Except.error (toString 1) := by
        unfold failTimes; rw [if_pos (by omega)]
      have e2 : failTimes (n + 3) 2 = Except.error (toString 2) := by
        unfold failTimes; rw [if_pos (by omega)]
      have h : clickLoop (failTimes (n + 3)) = (false, 3) := by
        unfold clickLoop
        simp [clickLoopAux, e0, e1, e2]
      rw [h]
      have h2 : decide (n + 3 < 3) = false := by simp
      have h3 : min (n + 3 + 1) 3 = 3 := by omega
      rw [h2, h3]
  · unfold serverlessAttemptFull serverlessAttemptTry
    repeat' split
    all_goals simp

end TelemetryScrapper
